import Mathlib

/-!
# Verification of `ShareeModel` (src/gui/filedetails/shareemodel.cpp)

A shallow embedding of the sharee-search model: JSON values follow Qt's
`QJsonValue` conversion semantics (a failed conversion yields the type's
default value, never an error), and the model's methods (`rowCount`, `data`,
`fetch`, `shareesFetched`, `parseSharee`) are translated into pure Lean
functions over an explicit state record.  Signals emitted by a method are
collected into an explicit event list.
-/

namespace OCC

/-- A JSON value, as consumed through Qt's `QJsonValue` interface.
`undefined` is `QJsonValue::Undefined`, what `QJsonObject::value` returns for
a missing key. Objects are association lists of string keys. -/
inductive JVal where
  | undefined
  | null
  | bool (b : Bool)
  | num (n : Int)
  | str (s : String)
  | arr (elems : List JVal)
  | obj (fields : List (String × JVal))
deriving Repr

/-- `QJsonValue::toObject()`: the fields when the value is an object,
otherwise a default-constructed (empty) object. -/
def JVal.toObject : JVal → List (String × JVal)
  | .obj fields => fields
  | _ => []

/-- `QJsonValue::toArray()`: the elements when the value is an array,
otherwise a default-constructed (empty) array. -/
def JVal.toArray : JVal → List JVal
  | .arr elems => elems
  | _ => []

/-- `QJsonValue::toString()`: the string when the value is a string,
otherwise a default-constructed (empty) `QString`. -/
def JVal.toQString : JVal → String
  | .str s => s
  | _ => ""

/-- `QJsonValue::toInt()`: the number when the value is numeric,
otherwise the default `0`. -/
def JVal.toInt : JVal → Int
  | .num n => n
  | _ => 0

/-- `QJsonObject::value(key)`: the value stored at `key`, or
`QJsonValue::Undefined` when the key is absent. -/
def jvalue (o : List (String × JVal)) (key : String) : JVal :=
  (List.lookup key o).getD .undefined

/-- The `Sharee` record (class `Sharee`, declared outside this file's source;
its constructor `Sharee(shareWith, displayName, type)` is called by
`ShareeModel::parseSharee`).  `type` is the raw integer share-type code: the
C++ cast `(Sharee::Type)int` lets unknown codes pass through unchanged. -/
structure Sharee where
  shareWith : String
  displayName : String
  type : Int
deriving Repr, DecidableEq

/-- Modelled from the spec: `Sharee::format` lives in sharee.h/sharee.cpp,
which are not part of this repository snapshot.  Per the spec (§4.5) the
human-facing display label of an item is the candidate's `displayName`. -/
def Sharee.format (s : Sharee) : String := s.displayName

/-- `QString::arg(a, b)` on a pattern: replace the place marker `%1` by `a`
and `%2` by `b`, in one pass over the pattern's characters. -/
def multiArgChars (a b : String) : List Char → List Char
  | [] => []
  | '%' :: '1' :: rest => a.toList ++ multiArgChars a b rest
  | '%' :: '2' :: rest => b.toList ++ multiArgChars a b rest
  | c :: rest => c :: multiArgChars a b rest

/-- `tr(pattern).arg(a, b)`: with no translator installed, `tr` returns the
pattern itself; `arg` substitutes the place markers. -/
def QString.arg2 (pattern a b : String) : String :=
  String.mk (multiArgChars a b pattern.toList)

/-- `ShareeModel::parseSharee` (shareemodel.cpp:224-235): build a `Sharee`
from one raw category entry. -/
def ShareeModel.parseSharee (data : List (String × JVal)) : Sharee :=
  let displayName := (jvalue data "label").toQString
  let shareWith := (jvalue (jvalue data "value").toObject "shareWith").toQString
  let type := (jvalue (jvalue data "value").toObject "shareType").toInt
  let additionalInfo := (jvalue (jvalue data "value").toObject "shareWithAdditionalInfo").toQString
  let displayName :=
    if !additionalInfo.isEmpty then QString.arg2 "%1 (%2)" displayName additionalInfo
    else displayName
  { shareWith := shareWith, displayName := displayName, type := type }

/-- `ShareeModel::LookupMode`. -/
inductive LookupMode where
  | LocalSearch
  | GlobalSearch
deriving Repr, DecidableEq, BEq

/-- The external `AccountState` collaborator: all the model reads from it is
whether `account()` is non-null. -/
structure AccountState where
  account : Bool
deriving Repr, DecidableEq

/-- The mutable fields of `ShareeModel` (shareemodel.h members read and
written by shareemodel.cpp). `accountState = none` models a null
`_accountState` pointer. -/
structure ShareeModelState where
  accountState : Option AccountState
  shareItemIsFolder : Bool
  searchString : String
  fetchOngoing : Bool
  lookupMode : LookupMode
  sharees : List Sharee
  shareeBlacklist : List Sharee
deriving Repr, DecidableEq

/-- The signals / model notifications a method emits, in emission order. -/
inductive Emitted where
  | fetchOngoingChanged
  | displayErrorMessage (statusCode : Int) (message : String)
  | beginResetModel
  | endResetModel
  | shareesReady
deriving Repr, DecidableEq

/-- One call to `OcsShareeJob::getSharees(search, itemType, page, perPage,
lookup)`. -/
structure GetShareesCall where
  search : String
  itemType : String
  page : Int
  perPage : Int
  lookup : Bool
deriving Repr, DecidableEq

/-- `ShareeModel::rowCount` (shareemodel.cpp:37-44). -/
def ShareeModel.rowCount (st : ShareeModelState) (parentValid : Bool) : Int :=
  if parentValid || st.accountState.isNone then 0
  else (st.sharees.length : Int)

/-- The roles `ShareeModel::data` switches on; `other` stands for any role
code not handled by the switch. -/
inductive ModelRole where
  | display
  | autoCompleterStringMatch
  | sharee
  | other
deriving Repr, DecidableEq

/-- A value produced by `ShareeModel::data` for a role. -/
inductive RoleValue where
  | str (s : String)
  | shareeVal (s : Sharee)
deriving Repr, DecidableEq

/-- The observable outcome of `ShareeModel::data`: an empty `QVariant`, a
role value, or — when `_sharees.at(i)` is reached with `i` out of range — an
out-of-bounds element access (undefined behavior in the C++). -/
inductive DataOutcome where
  | empty
  | val (v : RoleValue)
  | outOfBounds (i : Int)
deriving Repr, DecidableEq

/-- `ShareeModel::data` (shareemodel.cpp:55-79).  The guard is the source's
`index.row() < 0 || index.row() > _sharees.size()`; past it the code calls
`_sharees.at(index.row())`, modelled by `List.get?` with a failed lookup
surfacing as `DataOutcome.outOfBounds`.  The `sharee.isNull()` branch is
unreachable here because every stored `ShareePtr` is produced by
`parseSharee` via `new`, hence non-null. -/
def ShareeModel.data (sharees : List Sharee) (row : Int) (role : ModelRole) : DataOutcome :=
  if row < 0 ∨ row > (sharees.length : Int) then .empty
  else
    match sharees.get? row.toNat with
    | none => .outOfBounds row
    | some sharee =>
      match role with
      | .display => .val (.str sharee.format)
      | .autoCompleterStringMatch =>
          .val (.str (sharee.displayName ++ " (" ++ sharee.shareWith ++ ")"))
      | .sharee => .val (.shareeVal sharee)
      | .other => .empty

/-- The precondition guard of `ShareeModel::fetch` (shareemodel.cpp:154):
`!_accountState || !_accountState->account() || _searchString.isEmpty()`. -/
def ShareeModel.fetchGuard (st : ShareeModelState) : Bool :=
  match st.accountState with
  | none => true
  | some acct => !acct.account || st.searchString.isEmpty

/-- `ShareeModel::fetch` (shareemodel.cpp:152-174): on an unmet precondition,
return unchanged with nothing emitted and no job issued; otherwise set
`_fetchOngoing`, emit `fetchOngoingChanged` and issue exactly one
`getSharees` call. -/
def ShareeModel.fetch (st : ShareeModelState) :
    ShareeModelState × List Emitted × Option GetShareesCall :=
  if ShareeModel.fetchGuard st then (st, [], none)
  else
    let shareItemTypeString := if st.shareItemIsFolder then "folder" else "file"
    ({ st with fetchOngoing := true },
     [.fetchOngoingChanged],
     some { search := st.searchString, itemType := shareItemTypeString,
            page := 1, perPage := 50,
            lookup := st.lookupMode == LookupMode.GlobalSearch })

/-- The error lambda `ShareeModel::fetch` connects to `OcsJob::ocsError`
(shareemodel.cpp:167-171): clear `_fetchOngoing`, emit
`fetchOngoingChanged`, then `displayErrorMessage(statusCode, message)`;
`_sharees` is not touched. -/
def ShareeModel.onOcsError (st : ShareeModelState) (statusCode : Int) (message : String) :
    ShareeModelState × List Emitted :=
  ({ st with fetchOngoing := false },
   [.fetchOngoingChanged, .displayErrorMessage statusCode message])

/-- The fixed category order (shareemodel.cpp:185). -/
def shareeTypes : List String := ["users", "groups", "emails", "remotes", "circles", "rooms"]

/-- The blacklist lookup inside `appendSharees` (shareemodel.cpp:196-201):
`std::find_if` over `_shareeBlacklist`, as `List.find?`. -/
def ShareeModel.shareeInBlacklist (blacklist : List Sharee) (parsedSharee : Sharee) :
    Option Sharee :=
  blacklist.find? fun blacklistSharee =>
    parsedSharee.type == blacklistSharee.type &&
    parsedSharee.shareWith == blacklistSharee.shareWith

/-- The body of the `appendSharees` lambda for one category key
(shareemodel.cpp:188-209, inner loop): parse every entry of
`data.value(shareeType).toArray()` and append it unless blacklisted. -/
def ShareeModel.appendCategory (blacklist : List Sharee) (data : List (String × JVal))
    (acc : List Sharee) (shareeType : String) : List Sharee :=
  (jvalue data shareeType).toArray.foldl
    (fun acc sharee =>
      let parsedSharee := ShareeModel.parseSharee sharee.toObject
      if (ShareeModel.shareeInBlacklist blacklist parsedSharee).isSome then acc
      else acc ++ [parsedSharee])
    acc

/-- The `appendSharees` lambda (shareemodel.cpp:187-210): the categories of
one response segment, in the fixed `shareeTypes` order, appended onto the
shared `newSharees` accumulator. -/
def ShareeModel.appendSharees (blacklist : List Sharee) (data : List (String × JVal))
    (acc : List Sharee) : List Sharee :=
  shareeTypes.foldl (ShareeModel.appendCategory blacklist data) acc

/-- `reply.object().value("ocs").toObject().value("data").toObject()`
(shareemodel.cpp:211). -/
def replyDataObject (reply : JVal) : List (String × JVal) :=
  (jvalue (jvalue reply.toObject "ocs").toObject "data").toObject

/-- `replyDataObject.value("exact").toObject()` (shareemodel.cpp:212). -/
def replyDataExactMatchObject (reply : JVal) : List (String × JVal) :=
  (jvalue (replyDataObject reply) "exact").toObject

/-- The `newSharees` vector built by `ShareeModel::shareesFetched`
(shareemodel.cpp:183-215): `appendSharees(replyDataObject)` then
`appendSharees(replyDataExactMatchObject)` into the same vector. -/
def ShareeModel.newShareesFor (blacklist : List Sharee) (reply : JVal) : List Sharee :=
  ShareeModel.appendSharees blacklist (replyDataExactMatchObject reply)
    (ShareeModel.appendSharees blacklist (replyDataObject reply) [])

/-- `ShareeModel::shareesFetched` (shareemodel.cpp:176-222): clear
`_fetchOngoing` (emitting `fetchOngoingChanged`), build `newSharees`, then
replace `_sharees` inside a model reset and emit `shareesReady`. -/
def ShareeModel.shareesFetched (st : ShareeModelState) (reply : JVal) :
    ShareeModelState × List Emitted :=
  ({ st with fetchOngoing := false,
             sharees := ShareeModel.newShareesFor st.shareeBlacklist reply },
   [.fetchOngoingChanged, .beginResetModel, .endResetModel, .shareesReady])

/-! ## Declarative (spec-side) candidate lists

Used to state the refinement claims: candidates of one category, then one
segment, in the spec's fixed order, and the spec's exclusion predicate. -/

/-- The candidates parsed from one category key of a segment, in entry
order. -/
def categoryCandidates (data : List (String × JVal)) (shareeType : String) : List Sharee :=
  (jvalue data shareeType).toArray.map fun sharee =>
    ShareeModel.parseSharee sharee.toObject

/-- All candidates parsed from one segment: its six categories in the fixed
order users, groups, emails, remotes, circles, rooms, concatenated. -/
def segmentCandidates (data : List (String × JVal)) : List Sharee :=
  (shareeTypes.map (categoryCandidates data)).flatten

/-- Spec wording (§4.4): a candidate survives the exclusion set iff no entry
of the set has both the same type and the same identifier. -/
def survivesExclusion (blacklist : List Sharee) (c : Sharee) : Bool :=
  blacklist.all fun b => !(c.type == b.type && c.shareWith == b.shareWith)

/-! ## Concrete fixtures -/

/-- Fixture: one raw category entry for the user "ann". -/
def sampleEntry : JVal :=
  .obj [("label", .str "Ann"),
        ("value", .obj [("shareWith", .str "ann"), ("shareType", .num 0)])]

/-- Fixture response: `sampleEntry` among the broad segment's users, an
empty exact segment. -/
def sampleReply : JVal :=
  .obj [("ocs", .obj [("data", .obj [("users", .arr [sampleEntry]),
                                     ("exact", .obj [])])])]

/-- Fixture response: `sampleEntry` in both the broad and the exact
segment's users. -/
def sampleReplyDup : JVal :=
  .obj [("ocs", .obj [("data", .obj [("users", .arr [sampleEntry]),
                                     ("exact", .obj [("users", .arr [sampleEntry])])])])]

/-- The candidate `parseSharee` builds from `sampleEntry`. -/
def annSharee : Sharee := { shareWith := "ann", displayName := "Ann", type := 0 }

/-- Fixture state: a session with an account, a non-empty query, and a
non-empty stored result list. -/
def sampleState : ShareeModelState :=
  { accountState := some { account := true }, shareItemIsFolder := false,
    searchString := "ann", fetchOngoing := false, lookupMode := .LocalSearch,
    sharees := [annSharee], shareeBlacklist := [] }

/-! ## Bridging lemmas -/

/-- The `find?`-based blacklist test of the source agrees (negated) with the
spec's exclusion predicate. -/
theorem shareeInBlacklist_isSome (blacklist : List Sharee) (c : Sharee) :
    (ShareeModel.shareeInBlacklist blacklist c).isSome = !(survivesExclusion blacklist c) := by
  induction blacklist with
  | nil => rfl
  | cons b bs ih =>
    simp only [ShareeModel.shareeInBlacklist, survivesExclusion] at ih ⊢
    cases h : (c.type == b.type && c.shareWith == b.shareWith) <;>
      simp [List.find?_cons, h, ih]

/-- The inner category loop appends exactly the category's candidates that
survive the exclusion set, in entry order. -/
theorem appendCategory_eq (blacklist : List Sharee) (data : List (String × JVal))
    (acc : List Sharee) (shareeType : String) :
    ShareeModel.appendCategory blacklist data acc shareeType =
      acc ++ (categoryCandidates data shareeType).filter (survivesExclusion blacklist) := by
  unfold ShareeModel.appendCategory categoryCandidates
  generalize (jvalue data shareeType).toArray = l
  induction l generalizing acc with
  | nil => simp
  | cons x xs ih =>
    rw [List.foldl_cons, ih]
    cases h : survivesExclusion blacklist (ShareeModel.parseSharee x.toObject) <;>
      simp [shareeInBlacklist_isSome, h]

/-- The whole `appendSharees` lambda appends exactly the segment's surviving
candidates, in the fixed category order. -/
theorem appendSharees_eq (blacklist : List Sharee) (data : List (String × JVal))
    (acc : List Sharee) :
    ShareeModel.appendSharees blacklist data acc =
      acc ++ (segmentCandidates data).filter (survivesExclusion blacklist) := by
  unfold ShareeModel.appendSharees segmentCandidates
  generalize shareeTypes = tys
  induction tys generalizing acc with
  | nil => simp
  | cons t ts ih =>
    simp [appendCategory_eq, List.filter_append, ih]

/-- The `newSharees` vector equals the filtered broad-segment candidates
followed by the filtered exact-segment candidates. -/
theorem newShareesFor_eq (blacklist : List Sharee) (reply : JVal) :
    ShareeModel.newShareesFor blacklist reply =
      (segmentCandidates (replyDataObject reply)).filter (survivesExclusion blacklist) ++
      (segmentCandidates (replyDataExactMatchObject reply)).filter (survivesExclusion blacklist) := by
  simp [ShareeModel.newShareesFor, appendSharees_eq]

/-- The spec's exclusion predicate, spelled propositionally. -/
theorem survivesExclusion_eq_true_iff (blacklist : List Sharee) (c : Sharee) :
    survivesExclusion blacklist c = true ↔
      ∀ b ∈ blacklist, ¬(c.type = b.type ∧ c.shareWith = b.shareWith) := by
  simp only [survivesExclusion, List.all_eq_true, Bool.not_eq_true', Bool.and_eq_false_iff,
    beq_eq_false_iff_ne, ne_eq, not_and]
  exact forall₂_congr fun b hb => by tauto

/-- Evaluating the `arg` substitution on the source's pattern `"%1 (%2)"`. -/
theorem QString.arg2_eval (a b : String) :
    QString.arg2 "%1 (%2)" a b = a ++ " (" ++ b ++ ")" := by
  have hpat : "%1 (%2)".toList = ['%', '1', ' ', '(', '%', '2', ')'] := rfl
  apply String.ext
  rw [QString.arg2, hpat]
  simp [multiArgChars, String.data_append, String.toList]

/-- Evaluating `String.isEmpty` on the empty string. -/
theorem isEmpty_empty_string : "".isEmpty = true := rfl

/-! ## Claims -/

/-- C1: for every response document, the published result list equals the
candidates parsed from the broad segment's six categories in the fixed order
users, groups, emails, remotes, circles, rooms (those surviving the exclusion
set), followed by the candidates parsed from the exact segment's categories
in the same fixed order; no re-sorting happens across segments. -/
theorem C1_published_order (st : ShareeModelState) (reply : JVal) :
    (ShareeModel.shareesFetched st reply).1.sharees =
      (segmentCandidates (replyDataObject reply)).filter
        (survivesExclusion st.shareeBlacklist) ++
      (segmentCandidates (replyDataExactMatchObject reply)).filter
        (survivesExclusion st.shareeBlacklist) := by
  simp [ShareeModel.shareesFetched, newShareesFor_eq]

/-- C2: every candidate parsed from the response appears in the published
list iff no entry of the exclusion set has both the same type and the same
identifier. -/
theorem C2_exclusion_iff (blacklist : List Sharee) (reply : JVal) (c : Sharee)
    (hc : c ∈ segmentCandidates (replyDataObject reply) ++
            segmentCandidates (replyDataExactMatchObject reply)) :
    c ∈ ShareeModel.newShareesFor blacklist reply ↔
      ∀ b ∈ blacklist, ¬(c.type = b.type ∧ c.shareWith = b.shareWith) := by
  rw [newShareesFor_eq, ← survivesExclusion_eq_true_iff]
  simp only [List.mem_append, List.mem_filter] at hc ⊢
  tauto

/-- Witness for C2 on the fixture response with an empty exclusion set. -/
theorem C2_exclusion_iff_witness :
    annSharee ∈ segmentCandidates (replyDataObject sampleReply) ++
      segmentCandidates (replyDataExactMatchObject sampleReply) ∧
    (annSharee ∈ ShareeModel.newShareesFor [] sampleReply ↔
      ∀ b ∈ ([] : List Sharee),
        ¬(annSharee.type = b.type ∧ annSharee.shareWith = b.shareWith)) :=
  ⟨by decide, C2_exclusion_iff [] sampleReply annSharee (by decide)⟩

/-- C3: an `ocsError` completion clears the fetching flag, leaves the
published list exactly unchanged, and emits the state-changed notification
followed by the error event with the given status code and message. -/
theorem C3_error_keeps_list (st : ShareeModelState) (statusCode : Int) (message : String) :
    (ShareeModel.onOcsError st statusCode message).1.fetchOngoing = false ∧
    (ShareeModel.onOcsError st statusCode message).1.sharees = st.sharees ∧
    (ShareeModel.onOcsError st statusCode message).2 =
      [.fetchOngoingChanged, .displayErrorMessage statusCode message] :=
  ⟨rfl, rfl, rfl⟩

/-- C4: the claim fails on the code.  At row `i = _sharees.size()` the
source's guard `index.row() < 0 || index.row() > _sharees.size()` does not
fire, so `_sharees.at(i)` is reached with `i` out of range: the read is an
out-of-bounds element access, not the empty value the claim promises.  Here
evaluated on the empty list at row 0. -/
theorem C4_guard_off_by_one :
    ((0 : Int) < 0 ∨ (0 : Int) ≥ (([] : List Sharee).length : Int)) ∧
    ShareeModel.data [] 0 ModelRole.display ≠ DataOutcome.empty ∧
    ShareeModel.data [] 0 ModelRole.display = DataOutcome.outOfBounds 0 :=
  ⟨Or.inr (by decide), by decide, by decide⟩

/-- C5: the constructed candidate's display label is
`"{label} ({additionalInfo})"` when the additional-info string is non-empty,
and the label unchanged otherwise. -/
theorem C5_display_label (e : List (String × JVal)) :
    (ShareeModel.parseSharee e).displayName =
      if (jvalue (jvalue e "value").toObject "shareWithAdditionalInfo").toQString ≠ "" then
        (jvalue e "label").toQString ++ " (" ++
          (jvalue (jvalue e "value").toObject "shareWithAdditionalInfo").toQString ++ ")"
      else (jvalue e "label").toQString := by
  by_cases h : (jvalue (jvalue e "value").toObject "shareWithAdditionalInfo").toQString = ""
  · have he : (jvalue (jvalue e "value").toObject "shareWithAdditionalInfo").toQString.isEmpty
        = true := by rw [h]; exact isEmpty_empty_string
    simp [ShareeModel.parseSharee, h, he, isEmpty_empty_string]
  · have he : (jvalue (jvalue e "value").toObject "shareWithAdditionalInfo").toQString.isEmpty
        = false := Bool.eq_false_iff.mpr fun hb => h ((String.isEmpty_iff _).mp hb)
    simp [ShareeModel.parseSharee, h, he, QString.arg2_eval]

/-- C6: with no session object or an empty search string, `fetch` is a
silent no-op: the state is unchanged, nothing is emitted, no job is
issued. -/
theorem C6_precondition_noop (st : ShareeModelState)
    (h : st.accountState = none ∨ st.searchString = "") :
    ShareeModel.fetch st = (st, [], none) := by
  have hg : ShareeModel.fetchGuard st = true := by
    rcases h with h | h
    · simp [ShareeModel.fetchGuard, h]
    · cases hacc : st.accountState <;>
        simp [ShareeModel.fetchGuard, hacc, h, isEmpty_empty_string]
  simp [ShareeModel.fetch, hg]

/-- Witness for C6 on the fixture state with the session removed. -/
theorem C6_precondition_noop_witness :
    ({ sampleState with accountState := none }.accountState = none ∨
      { sampleState with accountState := none }.searchString = "") ∧
    ShareeModel.fetch { sampleState with accountState := none } =
      ({ sampleState with accountState := none }, [], none) :=
  ⟨Or.inl rfl, C6_precondition_noop _ (Or.inl rfl)⟩

/-- C7: with the preconditions met, `fetch` sets the fetching flag, emits the
state-changed notification, and issues exactly one directory search with the
current text, `"folder"` or `"file"` by item kind, page 1, page size 50, and
the global flag iff the lookup mode is `GlobalSearch`. -/
theorem C7_fetch_call (st : ShareeModelState) (acct : AccountState)
    (hacc : st.accountState = some acct) (hacct : acct.account = true)
    (hs : st.searchString ≠ "") :
    ShareeModel.fetch st =
      ({ st with fetchOngoing := true },
       [.fetchOngoingChanged],
       some { search := st.searchString,
              itemType := if st.shareItemIsFolder then "folder" else "file",
              page := 1, perPage := 50,
              lookup := st.lookupMode == LookupMode.GlobalSearch }) := by
  have he : st.searchString.isEmpty = false :=
    Bool.eq_false_iff.mpr fun hb => hs ((String.isEmpty_iff _).mp hb)
  have hg : ShareeModel.fetchGuard st = false := by
    simp [ShareeModel.fetchGuard, hacc, hacct, he]
  simp [ShareeModel.fetch, hg]

/-- Witness for C7 on the fixture state. -/
theorem C7_fetch_call_witness :
    sampleState.accountState = some { account := true } ∧
    sampleState.searchString ≠ "" ∧
    ShareeModel.fetch sampleState =
      ({ sampleState with fetchOngoing := true },
       [.fetchOngoingChanged],
       some { search := "ann", itemType := "file", page := 1, perPage := 50,
              lookup := false }) :=
  ⟨rfl, by decide, C7_fetch_call sampleState { account := true } rfl rfl (by decide)⟩

/-- C8: a candidate present in both the broad and the exact segment and not
on the exclusion set appears (at least) twice in the published list:
cross-segment duplicates are not collapsed. -/
theorem C8_duplicates_kept (blacklist : List Sharee) (reply : JVal) (c : Sharee)
    (hb : c ∈ segmentCandidates (replyDataObject reply))
    (he : c ∈ segmentCandidates (replyDataExactMatchObject reply))
    (hs : survivesExclusion blacklist c = true) :
    2 ≤ (ShareeModel.newShareesFor blacklist reply).count c := by
  rw [newShareesFor_eq, List.count_append]
  have h1 : 0 < ((segmentCandidates (replyDataObject reply)).filter
      (survivesExclusion blacklist)).count c :=
    List.count_pos_iff.mpr (List.mem_filter.mpr ⟨hb, hs⟩)
  have h2 : 0 < ((segmentCandidates (replyDataExactMatchObject reply)).filter
      (survivesExclusion blacklist)).count c :=
    List.count_pos_iff.mpr (List.mem_filter.mpr ⟨he, hs⟩)
  omega

/-- Witness for C8 on the fixture response holding the same entry in both
segments. -/
theorem C8_duplicates_kept_witness :
    annSharee ∈ segmentCandidates (replyDataObject sampleReplyDup) ∧
    annSharee ∈ segmentCandidates (replyDataExactMatchObject sampleReplyDup) ∧
    survivesExclusion [] annSharee = true ∧
    2 ≤ (ShareeModel.newShareesFor [] sampleReplyDup).count annSharee :=
  ⟨by decide, by decide, rfl,
    C8_duplicates_kept [] sampleReplyDup annSharee (by decide) (by decide) rfl⟩

/-- C9: a category key missing from a segment contributes an empty entry
list, and an entry with its fields missing parses to the defaults (empty
strings, share-type code 0); parsing is a total function and never raises an
error. -/
theorem C9_missing_defaults (blacklist : List Sharee) (data e : List (String × JVal))
    (acc : List Sharee) (shareeType : String)
    (hty : List.lookup shareeType data = none)
    (hlabel : List.lookup "label" e = none)
    (hvalue : List.lookup "value" e = none) :
    ShareeModel.appendCategory blacklist data acc shareeType = acc ∧
    ShareeModel.parseSharee e = { shareWith := "", displayName := "", type := 0 } := by
  constructor
  · simp [ShareeModel.appendCategory, jvalue, hty, JVal.toArray]
  · simp [ShareeModel.parseSharee, jvalue, hlabel, hvalue, JVal.toObject, JVal.toQString,
      JVal.toInt, isEmpty_empty_string, List.lookup]

/-- Witness for C9 on an empty segment object and an empty entry object. -/
theorem C9_missing_defaults_witness :
    List.lookup "users" ([] : List (String × JVal)) = none ∧
    (ShareeModel.appendCategory [] [] [annSharee] "users" = [annSharee] ∧
     ShareeModel.parseSharee [] = { shareWith := "", displayName := "", type := 0 }) :=
  ⟨rfl, C9_missing_defaults [] [] [] [annSharee] "users" rfl rfl rfl⟩

/-- C10: with no account state set, or with a valid parent index, the
reported row count is 0 even when the stored result list is non-empty. -/
theorem C10_rowCount_zero (st : ShareeModelState) (parentValid : Bool)
    (h : st.accountState = none ∨ parentValid = true) :
    ShareeModel.rowCount st parentValid = 0 := by
  rcases h with h | h <;> simp [ShareeModel.rowCount, h]

/-- Witness for C10: the fixture state with the session removed still holds
one sharee, yet reports zero rows. -/
theorem C10_rowCount_zero_witness :
    { sampleState with accountState := none }.sharees ≠ [] ∧
    ({ sampleState with accountState := none }.accountState = none ∨ false = true) ∧
    ShareeModel.rowCount { sampleState with accountState := none } false = 0 :=
  ⟨by decide, Or.inl rfl, C10_rowCount_zero _ false (Or.inl rfl)⟩

end OCC
